import Mathlib

/-!
Verification development for the IPO-reminder repository's BS→AD calendar
conversion and extraction engine (`scraper.py` / `scraper_standalone.py`).

The Python code is shallowly embedded: pure functions become Lean functions,
`None` results and caught exceptions become `Option`, Python `datetime`
arithmetic is modelled by day numbers (civil-from-days / days-from-civil),
and the hand-written regular expressions of the source are modelled by a
small executable backtracking matcher over the exact same patterns.
-/

/-! ## Model of the Python `datetime` library (Gregorian calendar) -/

/-- Gregorian leap-year rule, as used by `datetime`. -/
def isGregLeap (y : Int) : Bool :=
  (y % 4 == 0 && y % 100 != 0) || y % 400 == 0

/-- Length of Gregorian month `m` of year `y`. -/
def gregMonthLen (y : Int) (m : Nat) : Nat :=
  if m = 2 then (if isGregLeap y then 29 else 28)
  else if m = 4 ∨ m = 6 ∨ m = 9 ∨ m = 11 then 30
  else 31

/-- `datetime(y, m, d)` succeeds exactly on these triples
(years 1..9999, months 1..12, valid day of month). -/
def isValidDatetime (y : Int) (m d : Nat) : Prop :=
  1 ≤ y ∧ y ≤ 9999 ∧ 1 ≤ m ∧ m ≤ 12 ∧ 1 ≤ d ∧ d ≤ gregMonthLen y m

instance (y : Int) (m d : Nat) : Decidable (isValidDatetime y m d) :=
  inferInstanceAs (Decidable (1 ≤ y ∧ y ≤ 9999 ∧ 1 ≤ m ∧ m ≤ 12 ∧ 1 ≤ d ∧ d ≤ gregMonthLen y m))

/-- Day number (days since 1970-01-01) of a Gregorian date; the standard
civil-calendar algorithm, used to model `datetime` day arithmetic. -/
def daysFromCivil (y : Int) (m d : Nat) : Int :=
  let y' : Int := if m ≤ 2 then y - 1 else y
  let era : Int := (if 0 ≤ y' then y' else y' - 399) / 400
  let yoe : Nat := (y' - era * 400).toNat
  let mp : Nat := if 2 < m then m - 3 else m + 9
  let doy : Nat := (153 * mp + 2) / 5 + d - 1
  let doe : Nat := yoe * 365 + yoe / 4 - yoe / 100 + doy
  era * 146097 + (doe : Int) - 719468

/-- Inverse of `daysFromCivil`: Gregorian date of a day number. -/
def civilFromDays (z0 : Int) : Int × Nat × Nat :=
  let z : Int := z0 + 719468
  let era : Int := (if 0 ≤ z then z else z - 146096) / 146097
  let doe : Nat := (z - era * 146097).toNat
  let yoe : Nat := (doe - doe / 1460 + doe / 36524 - doe / 146096) / 365
  let y : Int := (yoe : Int) + era * 400
  let doy : Nat := doe - (365 * yoe + yoe / 4 - yoe / 100)
  let mp : Nat := (5 * doy + 2) / 153
  let d : Nat := doy - (153 * mp + 2) / 5 + 1
  let m : Nat := if mp < 10 then mp + 3 else mp - 9
  (if m ≤ 2 then y + 1 else y, m, d)

def digitChar (n : Nat) : Char := Char.ofNat (48 + n)

def pad4 (n : Nat) : String :=
  String.mk [digitChar (n / 1000 % 10), digitChar (n / 100 % 10),
             digitChar (n / 10 % 10), digitChar (n % 10)]

def pad2 (n : Nat) : String :=
  String.mk [digitChar (n / 10 % 10), digitChar (n % 10)]

/-- `strftime('%Y-%m-%d')` on a date given as (year, month, day). -/
def formatYMD (y : Int) (m d : Nat) : String :=
  pad4 y.toNat ++ "-" ++ pad2 m ++ "-" ++ pad2 d

def formatYMDTriple (t : Int × Nat × Nat) : String :=
  formatYMD t.1 t.2.1 t.2.2

/-- Day number of `datetime.min` (0001-01-01). -/
def minDatetimeDay : Int := daysFromCivil 1 1 1

/-- Day number of `datetime.max`'s date (9999-12-31). -/
def maxDatetimeDay : Int := daysFromCivil 9999 12 31

/-- `(base_date + timedelta(days=diff)).strftime('%Y-%m-%d')` where `base`
is the day number of the base date; `none` models the `OverflowError`
raised when the result leaves the `datetime` range. -/
def formatDateAdd (base diff : Int) : Option String :=
  if minDatetimeDay ≤ base + diff ∧ base + diff ≤ maxDatetimeDay then
    some (formatYMDTriple (civilFromDays (base + diff)))
  else none

/-! ## Model of Python string helpers -/

/-- Python `\s` class (`str.strip` / whitespace splitting also use this set). -/
def isPySpaceC (c : Char) : Bool :=
  c = ' ' || c = '\t' || c = '\n' || c = '\x0d' || c = '\x0b' || c = '\x0c'

/-- Python regex `\d` class (ASCII digits on these inputs). -/
def isDigitC (c : Char) : Bool := c.isDigit

/-- Python regex `\w` class (letters, digits, underscore on these inputs). -/
def isWordC (c : Char) : Bool := c.isAlphanum || c = '_'

/-- The `[,\s]` class of the date-parsing pattern. -/
def isCommaSpaceC (c : Char) : Bool := c = ',' || isPySpaceC c

/-- The `[-–—]` dash class of date-range pattern 1. -/
def isDashC (c : Char) : Bool := c = '-' || c = '–' || c = '—'

/-- Python `str.strip()`. -/
def pyStrip (s : List Char) : List Char :=
  ((s.dropWhile isPySpaceC).reverse.dropWhile isPySpaceC).reverse

/-- Python `str.lower()` (ASCII inputs). -/
def pyLower (s : List Char) : List Char := s.map Char.toLower

/-- Index of the first occurrence of `needle` as a substring, if any
(models Python `sep in text` and `text.split(sep)[0]`). -/
def findSub (needle : List Char) : List Char → Option Nat
  | [] => if needle.isEmpty then some 0 else none
  | c :: cs =>
    if needle.isPrefixOf (c :: cs) then some 0
    else (findSub needle cs).map (· + 1)

/-- Python `text.split(sep)[0]`: the text up to the first occurrence of
`sep`, or all of `text` when `sep` does not occur. -/
def splitFirstPart (sep text : List Char) : List Char :=
  match findSub sep text with
  | some i => text.take i
  | none => text

/-- Helper for `splitPyWs`: `acc` holds the current word, reversed. -/
def splitPyWsAux : List Char → List Char → List (List Char)
  | [], acc => if acc.isEmpty then [] else [acc.reverse]
  | c :: cs, acc =>
    if isPySpaceC c then
      if acc.isEmpty then splitPyWsAux cs [] else acc.reverse :: splitPyWsAux cs []
    else splitPyWsAux cs (c :: acc)

/-- Python `str.split()` (split on whitespace runs, dropping empties). -/
def splitPyWs (s : List Char) : List (List Char) := splitPyWsAux s []

/-- Numeric value of a digit string (Python `int` on regex group text). -/
def parseNatDigits (s : List Char) : Nat :=
  s.foldl (fun acc c => acc * 10 + (c.toNat - 48)) 0

/-! ## A small backtracking regex matcher

Just the constructs appearing in the source's patterns: character classes,
case-insensitive literals, concatenation, alternation, greedy `?`,
greedy `{lo,hi}` / `+` / `*` over a character class, and numbered groups.
`reSearchAux` models `re.search`: it tries successive start positions and
returns the group captures of the leftmost match. -/

inductive RE where
  | cls : (Char → Bool) → RE
  | lit : List Char → RE
  | seq : RE → RE → RE
  | alt : RE → RE → RE
  | opt : RE → RE
  | rep : (Char → Bool) → Nat → Nat → RE
  | star : (Char → Bool) → RE
  | plus : (Char → Bool) → RE
  | grp : Nat → RE → RE

/-- Length of the maximal prefix run of characters satisfying `p`. -/
def charRun (p : Char → Bool) : List Char → Nat
  | [] => 0
  | c :: cs => if p c then charRun p cs + 1 else 0

/-- Case-insensitive literal match (the source compiles with `re.IGNORECASE`). -/
def litMatch : List Char → List Char → Option (List Char)
  | [], rest => some rest
  | _, [] => none
  | a :: as, c :: cs => if a.toLower == c.toLower then litMatch as cs else none

/-- All ways a regex can match a prefix of `cs`, in backtracking priority
order; each result is the remaining suffix plus the group captures. -/
def reMatch : RE → List Char → List (List Char × List (Nat × List Char))
  | .cls _, [] => []
  | .cls p, c :: cs => if p c then [(cs, [])] else []
  | .lit s, cs =>
    match litMatch s cs with
    | some r => [(r, [])]
    | none => []
  | .seq a b, cs =>
    (reMatch a cs).flatMap fun pr =>
      (reMatch b pr.1).map fun qr => (qr.1, pr.2 ++ qr.2)
  | .alt a b, cs => reMatch a cs ++ reMatch b cs
  | .opt a, cs => reMatch a cs ++ [(cs, [])]
  | .rep p lo hi, cs =>
    let run := min (charRun p cs) hi
    if run < lo then []
    else (List.range (run + 1 - lo)).map fun i => (cs.drop (run - i), [])
  | .star p, cs =>
    let run := charRun p cs
    (List.range (run + 1)).map fun i => (cs.drop (run - i), [])
  | .plus p, cs =>
    let run := charRun p cs
    if run = 0 then []
    else (List.range run).map fun i => (cs.drop (run - i), [])
  | .grp n a, cs =>
    (reMatch a cs).map fun pr =>
      (pr.1, (n, cs.take (cs.length - pr.1.length)) :: pr.2)

/-- `re.search`: scan start positions left to right, return the captures of
the first (leftmost) match. -/
def reSearchAux (r : RE) : List Char → Option (List (Nat × List Char))
  | [] =>
    match reMatch r [] with
    | pr :: _ => some pr.2
    | [] => none
  | c :: cs =>
    match reMatch r (c :: cs) with
    | pr :: _ => some pr.2
    | [] => reSearchAux r cs

def getGroup (gs : List (Nat × List Char)) (n : Nat) : Option (List Char) :=
  (gs.find? (fun g => g.1 == n)).map (·.2)

def reCat (l : List RE) : RE := l.foldr .seq (.lit [])

/-- `(?:st|nd|rd|th)` — the ordinal suffixes. -/
def ordSuffix : RE :=
  .alt (.lit ['s', 't']) (.alt (.lit ['n', 'd']) (.alt (.lit ['r', 'd']) (.lit ['t', 'h'])))

/-! ## Shared data model -/

/-- The `{'year': .., 'month': .., 'day': ..}` dict returned by `parse_bs_date`. -/
structure BSTriple where
  year : Nat
  month : Nat
  day : Nat
deriving DecidableEq, Repr

/-- Python list indexing (supports the negative indices Python allows;
`none` models `IndexError`). -/
def pyIndex (lens : List Nat) (i : Int) : Option Nat :=
  if 0 ≤ i then lens.get? i.toNat
  else if (-i).toNat ≤ lens.length then lens.get? (lens.length - (-i).toNat)
  else none

/-! ## `scraper.py`: class `BSToADConverter` -/

namespace Scraper

/-- `BS_MONTHS`: alias table from BS month-name spellings to month numbers
(the source lists the key `kartik` twice with the same value; the dict
collapses this to one entry). -/
def BS_MONTHS : List (String × Nat) :=
  [("baisakh", 1), ("baishakh", 1),
   ("jestha", 2), ("jeth", 2),
   ("ashadh", 3), ("asar", 3), ("ashad", 3),
   ("shrawan", 4), ("shravan", 4), ("sawan", 4),
   ("bhadra", 5), ("bhadau", 5),
   ("ashwin", 6), ("ashoj", 6),
   ("kartik", 7),
   ("mangsir", 8), ("mangshir", 8),
   ("poush", 9), ("paush", 9), ("push", 9),
   ("magh", 10), ("maghe", 10),
   ("falgun", 11), ("phalgun", 11),
   ("chaitra", 12), ("chait", 12)]

/-- `BS_MONTH_DAYS` dict lookup: `BS_MONTH_DAYS.get(year)`. -/
def bsMonthDays (y : Nat) : Option (List Nat) :=
  if y = 2080 then some [31, 31, 31, 32, 31, 31, 30, 29, 30, 29, 30, 30]
  else if y = 2081 then some [31, 31, 32, 31, 31, 31, 30, 29, 30, 29, 30, 30]
  else if y = 2082 then some [31, 32, 31, 32, 31, 30, 30, 30, 29, 29, 30, 30]
  else if y = 2083 then some [31, 31, 31, 32, 31, 31, 30, 29, 30, 29, 30, 30]
  else if y = 2084 then some [31, 31, 32, 31, 31, 31, 30, 29, 30, 29, 30, 30]
  else if y = 2085 then some [31, 32, 31, 32, 31, 30, 30, 30, 29, 29, 30, 30]
  else if y = 2086 then some [31, 31, 31, 32, 31, 31, 30, 29, 30, 29, 30, 30]
  else none

/-- `REFERENCE_BS = {'year': 2080, 'month': 1, 'day': 1}`. -/
def REFERENCE_BS_year : Nat := 2080
def REFERENCE_BS_month : Nat := 1
def REFERENCE_BS_day : Nat := 1

/-- Day number of `REFERENCE_AD = datetime(2023, 4, 14)`. -/
def REFERENCE_AD_daynum : Int := daysFromCivil 2023 4 14

/-- `normalize_month_name`: lower-case, strip, look up in `BS_MONTHS`. -/
def normalize_month_name (month_name : String) : Option Nat :=
  BS_MONTHS.lookup (String.mk (pyStrip (pyLower month_name.data)))

/-- The pattern of `parse_bs_date`:
`(\d{1,2})(?:st|nd|rd|th)?\s+(\w+)[,\s]+(\d{4})`. -/
def parseDateRE : RE :=
  reCat [.grp 1 (.rep isDigitC 1 2), .opt ordSuffix, .plus isPySpaceC,
         .grp 2 (.plus isWordC), .plus isCommaSpaceC, .grp 3 (.rep isDigitC 4 4)]

/-- `parse_bs_date`: parse "28 Magh 2081" / "28th Magh 2081" style strings. -/
def parse_bs_date (bs_date_str : String) : Option BSTriple :=
  if bs_date_str = "" then none
  else
    match reSearchAux parseDateRE bs_date_str.data with
    | none => none
    | some gs => do
      let dayCs ← getGroup gs 1
      let monthCs ← getGroup gs 2
      let yearCs ← getGroup gs 3
      let month ← normalize_month_name (String.mk monthCs)
      pure ⟨parseNatDigits yearCs, month, parseNatDigits dayCs⟩

/-- One month-summing loop `for m in range(a, b): days += BS_MONTH_DAYS[y][m-1]`;
the dict and list accesses happen inside the loop body, so an absent year or
bad index raises (`none`) only if the loop actually runs. -/
def sumMonthsOfYear (y a b : Nat) : Option Int :=
  (List.range' a (b - a)).foldl
    (fun acc mm => do
      let s ← acc
      let lens ← bsMonthDays y
      let v ← pyIndex lens ((mm : Int) - 1)
      pure (s + (v : Int)))
    (some 0)

/-- `sum(BS_MONTH_DAYS[y]) if y in BS_MONTH_DAYS else 365`, summed over
`range(a, b)` — the intervening-years loop. -/
def sumYears (a b : Nat) : Int :=
  ((List.range' a (b - a)).map
    (fun yy => match bsMonthDays yy with
      | some lens => (lens.sum : Int)
      | none => 365)).sum

/-- `_calculate_days_backwards` (days from a pre-anchor BS date forward to the
anchor). Unreachable from `bs_to_ad` for tabulated years, which all lie at or
after the anchor year. -/
def calculateDaysBackwards (y m d : Nat) : Option Int := do
  if y = REFERENCE_BS_year then
    let s ← sumMonthsOfYear y m REFERENCE_BS_month
    pure (s + ((REFERENCE_BS_day : Int) - d))
  else
    let lens ← bsMonthDays y
    let v ← pyIndex lens ((m : Int) - 1)
    let s2 ← sumMonthsOfYear y (m + 1) 13
    let s3 := sumYears (y + 1) REFERENCE_BS_year
    let s4 ← sumMonthsOfYear REFERENCE_BS_year 1 REFERENCE_BS_month
    pure ((v : Int) - d + s2 + s3 + s4 + REFERENCE_BS_day)

/-- `_calculate_days_from_reference`: signed day offset the code assigns to a
BS date relative to the anchor BS 2080-01-01. -/
def calculateDaysFromReference (y m d : Nat) : Option Int :=
  if y < REFERENCE_BS_year ∨ (y = REFERENCE_BS_year ∧ m < REFERENCE_BS_month) then
    (calculateDaysBackwards y m d).map (fun x => -x)
  else if y = REFERENCE_BS_year then do
    let s ← sumMonthsOfYear y REFERENCE_BS_month m
    pure (s + ((d : Int) - REFERENCE_BS_day))
  else do
    let s1 ← sumMonthsOfYear REFERENCE_BS_year REFERENCE_BS_month 13
    let s2 := sumYears (REFERENCE_BS_year + 1) y
    let s3 ← sumMonthsOfYear y 1 m
    pure (s1 - ((REFERENCE_BS_day : Int) - 1) + s2 + s3 + d)

/-- `_approximate_bs_to_ad`: approximate conversion for years outside the
table; `none` models the case where even the day-1 fallback `datetime`
construction raises (the exception then propagates to `bs_to_ad`). -/
def approximate_bs_to_ad (bs_year bs_month bs_day : Nat) : Option String :=
  let ad_year : Int := if 10 ≤ bs_month then (bs_year : Int) - 57 + 1 else (bs_year : Int) - 57
  let ad_month : Nat := if 10 ≤ bs_month then bs_month - 9 else bs_month + 3
  let ad_day : Nat := min bs_day 28
  if isValidDatetime ad_year ad_month ad_day then
    some (formatYMD ad_year ad_month ad_day)
  else if isValidDatetime ad_year ad_month 1 then
    some (formatYMD ad_year ad_month 1)
  else none

/-- `bs_to_ad`: convert a BS (year, month, day) to an ISO AD date string;
`none` models both the explicit `return None` paths and the `except` handler. -/
def bs_to_ad (bs_year bs_month bs_day : Nat) : Option String :=
  match bsMonthDays bs_year with
  | none => approximate_bs_to_ad bs_year bs_month bs_day
  | some lens =>
    if bs_month < 1 ∨ 12 < bs_month then none
    else if bs_day < 1 ∨ lens.getD (bs_month - 1) 0 < bs_day then none
    else
      match calculateDaysFromReference bs_year bs_month bs_day with
      | none => none
      | some days_diff => formatDateAdd REFERENCE_AD_daynum days_diff

/-- `convert_bs_date_string`: parse then convert. -/
def convert_bs_date_string (bs_date_str : String) : Option String :=
  match parse_bs_date bs_date_str with
  | none => none
  | some p => bs_to_ad p.year p.month p.day

end Scraper

/-! ## `scraper.py`: class `MerolaganiScraper` extraction helpers -/

namespace Scraper

/-- `_extract_company_name`'s separator list. -/
def companySeparators : List String := [" - ", " – ", " — ", " IPO", " Share"]

/-- `_extract_company_name`'s keyword list. -/
def companyKeywords : List String := [" of ", " from ", " opens"]

/-- `_extract_company_name`: first separator whose prefix part is longer than
3 characters wins; then keywords (membership tested on the lower-cased text
but the split done on the original, as in the source); then the first up to
5 whitespace words when there are at least 3. -/
def extract_company_name (text : String) : Option String :=
  let t := text.data
  let bySep : Option (List Char) :=
    companySeparators.foldl
      (fun acc sep =>
        match acc with
        | some r => some r
        | none =>
          match findSub sep.data t with
          | some _ =>
            let part := pyStrip (splitFirstPart sep.data t)
            if 3 < part.length then some part else none
          | none => none)
      none
  match bySep with
  | some r => some (String.mk r)
  | none =>
    let byKw : Option (List Char) :=
      companyKeywords.foldl
        (fun acc kw =>
          match acc with
          | some r => some r
          | none =>
            if (findSub kw.data (pyLower t)).isSome then
              let part := pyStrip (splitFirstPart kw.data t)
              if 3 < part.length then some part else none
            else none)
        none
    match byKw with
    | some r => some (String.mk r)
    | none =>
      let words := splitPyWs t
      if 3 ≤ words.length then
        some (String.intercalate " " ((words.take 5).map String.mk))
      else none

/-- Pattern 1 of `_extract_date_range`:
`(\d{1,2})(?:st|nd|rd|th)\s+(\w+)\s*[-–—]\s*(\d{1,2})(?:st|nd|rd|th)\s+(\w+),?\s*(\d{4})`. -/
def rangePattern1 : RE :=
  reCat [.grp 1 (.rep isDigitC 1 2), ordSuffix, .plus isPySpaceC,
         .grp 2 (.plus isWordC), .star isPySpaceC, .cls isDashC, .star isPySpaceC,
         .grp 3 (.rep isDigitC 1 2), ordSuffix, .plus isPySpaceC,
         .grp 4 (.plus isWordC), .opt (.lit [',']), .star isPySpaceC,
         .grp 5 (.rep isDigitC 4 4)]

/-- Pattern 2 of `_extract_date_range`:
`(\d{1,2})(?:st|nd|rd|th)\s+(?:to|-)\s+(\d{1,2})(?:st|nd|rd|th)\s+(\w+),?\s*(\d{4})`. -/
def rangePattern2 : RE :=
  reCat [.grp 1 (.rep isDigitC 1 2), ordSuffix, .plus isPySpaceC,
         .alt (.lit ['t', 'o']) (.lit ['-']), .plus isPySpaceC,
         .grp 2 (.rep isDigitC 1 2), ordSuffix, .plus isPySpaceC,
         .grp 3 (.plus isWordC), .opt (.lit [',']), .star isPySpaceC,
         .grp 4 (.rep isDigitC 4 4)]

/-- Pattern 3 of `_extract_date_range`:
`from\s+(\d{1,2})(?:st|nd|rd|th)\s+(\w+)\s+to\s+(\d{1,2})(?:st|nd|rd|th)\s+(\w+),?\s*(\d{4})`. -/
def rangePattern3 : RE :=
  reCat [.lit ['f', 'r', 'o', 'm'], .plus isPySpaceC,
         .grp 1 (.rep isDigitC 1 2), ordSuffix, .plus isPySpaceC,
         .grp 2 (.plus isWordC), .plus isPySpaceC,
         .lit ['t', 'o'], .plus isPySpaceC,
         .grp 3 (.rep isDigitC 1 2), ordSuffix, .plus isPySpaceC,
         .grp 4 (.plus isWordC), .opt (.lit [',']), .star isPySpaceC,
         .grp 5 (.rep isDigitC 4 4)]

/-- Rebuild the `f"{day} {month} {year}"` phrase of `_extract_date_range`. -/
def datePhrase (dayCs monthCs yearCs : List Char) : String :=
  String.mk dayCs ++ " " ++ String.mk monthCs ++ " " ++ String.mk yearCs

/-- `_extract_date_range`: three ordered patterns; the first that matches
yields the `(start, end)` BS date phrases. -/
def extract_date_range (text : String) : Option (String × String) :=
  let t := text.data
  match reSearchAux rangePattern1 t with
  | some gs => do
    let sd ← getGroup gs 1
    let sm ← getGroup gs 2
    let ed ← getGroup gs 3
    let em ← getGroup gs 4
    let yr ← getGroup gs 5
    pure (datePhrase sd sm yr, datePhrase ed em yr)
  | none =>
    match reSearchAux rangePattern2 t with
    | some gs => do
      let sd ← getGroup gs 1
      let ed ← getGroup gs 2
      let mo ← getGroup gs 3
      let yr ← getGroup gs 4
      pure (datePhrase sd mo yr, datePhrase ed mo yr)
    | none =>
      match reSearchAux rangePattern3 t with
      | some gs => do
        let sd ← getGroup gs 1
        let sm ← getGroup gs 2
        let ed ← getGroup gs 3
        let em ← getGroup gs 4
        let yr ← getGroup gs 5
        pure (datePhrase sd sm yr, datePhrase ed em yr)
      | none => none

/-- An entry of the list fed to `_convert_dates_to_ad` (as produced by
`_parse_media_div`). -/
structure IpoBS where
  company : String
  startDateBS : String
  endDateBS : String
  rawText : String
deriving DecidableEq, Repr

/-- An entry of the list `_convert_dates_to_ad` returns. -/
structure IpoAD where
  company : String
  startDateBS : String
  endDateBS : String
  startDateAD : String
  endDateAD : String
  rawText : String
deriving DecidableEq, Repr

/-- `_convert_dates_to_ad`: the accumulating loop of the source, including
the truthiness guards (`if ipo.get('startDateBS'):`,
`if start_date_ad and end_date_ad:`). -/
def convert_dates_to_ad (ipos_bs : List IpoBS) : List IpoAD :=
  ipos_bs.foldl
    (fun acc ipo =>
      let startAD := if ipo.startDateBS ≠ "" then convert_bs_date_string ipo.startDateBS else none
      let endAD := if ipo.endDateBS ≠ "" then convert_bs_date_string ipo.endDateBS else none
      match startAD, endAD with
      | some s, some e =>
        if s ≠ "" ∧ e ≠ "" then
          acc ++ [⟨ipo.company, ipo.startDateBS, ipo.endDateBS, s, e, ipo.rawText⟩]
        else acc
      | _, _ => acc)
    []

/-- The per-entry success condition of `_convert_dates_to_ad`, written as a
single `Option` step: an entry is emitted exactly when both BS date strings
convert successfully. -/
def convertEntry (ipo : IpoBS) : Option IpoAD :=
  match convert_bs_date_string ipo.startDateBS, convert_bs_date_string ipo.endDateBS with
  | some s, some e => some ⟨ipo.company, ipo.startDateBS, ipo.endDateBS, s, e, ipo.rawText⟩
  | _, _ => none

/-- The loop body of `_convert_dates_to_ad`, as a named function (its body
is the same term as the lambda inside `convert_dates_to_ad`). -/
def convertStep (acc : List IpoAD) (ipo : IpoBS) : List IpoAD :=
  let startAD := if ipo.startDateBS ≠ "" then convert_bs_date_string ipo.startDateBS else none
  let endAD := if ipo.endDateBS ≠ "" then convert_bs_date_string ipo.endDateBS else none
  match startAD, endAD with
  | some s, some e =>
    if s ≠ "" ∧ e ≠ "" then
      acc ++ [⟨ipo.company, ipo.startDateBS, ipo.endDateBS, s, e, ipo.rawText⟩]
    else acc
  | _, _ => acc

end Scraper

/-! ## `scraper_standalone.py`: its own `BSToADConverter`

The standalone scraper re-implements the converter class. Its definitions
are transcribed here separately, from that file, so that the equivalence of
the two implementations is a statement about two distinct embeddings. -/

namespace Standalone

/-- `BS_MONTHS` of `scraper_standalone.py`. -/
def BS_MONTHS : List (String × Nat) :=
  [("baisakh", 1), ("baishakh", 1),
   ("jestha", 2), ("jeth", 2),
   ("ashadh", 3), ("asar", 3), ("ashad", 3),
   ("shrawan", 4), ("shravan", 4), ("sawan", 4),
   ("bhadra", 5), ("bhadau", 5),
   ("ashwin", 6), ("ashoj", 6),
   ("kartik", 7),
   ("mangsir", 8), ("mangshir", 8),
   ("poush", 9), ("paush", 9), ("push", 9),
   ("magh", 10), ("maghe", 10),
   ("falgun", 11), ("phalgun", 11),
   ("chaitra", 12), ("chait", 12)]

/-- `BS_MONTH_DAYS` of `scraper_standalone.py`. -/
def bsMonthDays (y : Nat) : Option (List Nat) :=
  if y = 2080 then some [31, 31, 31, 32, 31, 31, 30, 29, 30, 29, 30, 30]
  else if y = 2081 then some [31, 31, 32, 31, 31, 31, 30, 29, 30, 29, 30, 30]
  else if y = 2082 then some [31, 32, 31, 32, 31, 30, 30, 30, 29, 29, 30, 30]
  else if y = 2083 then some [31, 31, 31, 32, 31, 31, 30, 29, 30, 29, 30, 30]
  else if y = 2084 then some [31, 31, 32, 31, 31, 31, 30, 29, 30, 29, 30, 30]
  else if y = 2085 then some [31, 32, 31, 32, 31, 30, 30, 30, 29, 29, 30, 30]
  else if y = 2086 then some [31, 31, 31, 32, 31, 31, 30, 29, 30, 29, 30, 30]
  else none

def REFERENCE_BS_year : Nat := 2080
def REFERENCE_BS_month : Nat := 1
def REFERENCE_BS_day : Nat := 1

/-- Day number of `REFERENCE_AD = datetime(2023, 4, 14)`. -/
def REFERENCE_AD_daynum : Int := daysFromCivil 2023 4 14

/-- `normalize_month_name` of `scraper_standalone.py`. -/
def normalize_month_name (month_name : String) : Option Nat :=
  BS_MONTHS.lookup (String.mk (pyStrip (pyLower month_name.data)))

/-- The `parse_bs_date` pattern of `scraper_standalone.py`:
`(\d{1,2})(?:st|nd|rd|th)?\s+(\w+)[,\s]+(\d{4})`. -/
def parseDateRE : RE :=
  reCat [.grp 1 (.rep isDigitC 1 2), .opt ordSuffix, .plus isPySpaceC,
         .grp 2 (.plus isWordC), .plus isCommaSpaceC, .grp 3 (.rep isDigitC 4 4)]

/-- `parse_bs_date` of `scraper_standalone.py`. -/
def parse_bs_date (bs_date_str : String) : Option BSTriple :=
  if bs_date_str = "" then none
  else
    match reSearchAux parseDateRE bs_date_str.data with
    | none => none
    | some gs => do
      let dayCs ← getGroup gs 1
      let monthCs ← getGroup gs 2
      let yearCs ← getGroup gs 3
      let month ← normalize_month_name (String.mk monthCs)
      pure ⟨parseNatDigits yearCs, month, parseNatDigits dayCs⟩

/-- The month-summing loops of `scraper_standalone.py`'s day counting. -/
def sumMonthsOfYear (y a b : Nat) : Option Int :=
  (List.range' a (b - a)).foldl
    (fun acc mm => do
      let s ← acc
      let lens ← bsMonthDays y
      let v ← pyIndex lens ((mm : Int) - 1)
      pure (s + (v : Int)))
    (some 0)

/-- The intervening-years loop of `scraper_standalone.py`. -/
def sumYears (a b : Nat) : Int :=
  ((List.range' a (b - a)).map
    (fun yy => match bsMonthDays yy with
      | some lens => (lens.sum : Int)
      | none => 365)).sum

/-- `_calculate_days_backwards` of `scraper_standalone.py`. -/
def calculateDaysBackwards (y m d : Nat) : Option Int := do
  if y = REFERENCE_BS_year then
    let s ← sumMonthsOfYear y m REFERENCE_BS_month
    pure (s + ((REFERENCE_BS_day : Int) - d))
  else
    let lens ← bsMonthDays y
    let v ← pyIndex lens ((m : Int) - 1)
    let s2 ← sumMonthsOfYear y (m + 1) 13
    let s3 := sumYears (y + 1) REFERENCE_BS_year
    let s4 ← sumMonthsOfYear REFERENCE_BS_year 1 REFERENCE_BS_month
    pure ((v : Int) - d + s2 + s3 + s4 + REFERENCE_BS_day)

/-- `_calculate_days_from_reference` of `scraper_standalone.py`. -/
def calculateDaysFromReference (y m d : Nat) : Option Int :=
  if y < REFERENCE_BS_year ∨ (y = REFERENCE_BS_year ∧ m < REFERENCE_BS_month) then
    (calculateDaysBackwards y m d).map (fun x => -x)
  else if y = REFERENCE_BS_year then do
    let s ← sumMonthsOfYear y REFERENCE_BS_month m
    pure (s + ((d : Int) - REFERENCE_BS_day))
  else do
    let s1 ← sumMonthsOfYear REFERENCE_BS_year REFERENCE_BS_month 13
    let s2 := sumYears (REFERENCE_BS_year + 1) y
    let s3 ← sumMonthsOfYear y 1 m
    pure (s1 - ((REFERENCE_BS_day : Int) - 1) + s2 + s3 + d)

/-- `_approximate_bs_to_ad` of `scraper_standalone.py`. -/
def approximate_bs_to_ad (bs_year bs_month bs_day : Nat) : Option String :=
  let ad_year : Int := if 10 ≤ bs_month then (bs_year : Int) - 57 + 1 else (bs_year : Int) - 57
  let ad_month : Nat := if 10 ≤ bs_month then bs_month - 9 else bs_month + 3
  let ad_day : Nat := min bs_day 28
  if isValidDatetime ad_year ad_month ad_day then
    some (formatYMD ad_year ad_month ad_day)
  else if isValidDatetime ad_year ad_month 1 then
    some (formatYMD ad_year ad_month 1)
  else none

/-- `bs_to_ad` of `scraper_standalone.py`. -/
def bs_to_ad (bs_year bs_month bs_day : Nat) : Option String :=
  match bsMonthDays bs_year with
  | none => approximate_bs_to_ad bs_year bs_month bs_day
  | some lens =>
    if bs_month < 1 ∨ 12 < bs_month then none
    else if bs_day < 1 ∨ lens.getD (bs_month - 1) 0 < bs_day then none
    else
      match calculateDaysFromReference bs_year bs_month bs_day with
      | none => none
      | some days_diff => formatDateAdd REFERENCE_AD_daynum days_diff

/-- `convert_bs_date_string` of `scraper_standalone.py`. -/
def convert_bs_date_string (bs_date_str : String) : Option String :=
  match parse_bs_date bs_date_str with
  | none => none
  | some p => bs_to_ad p.year p.month p.day

end Standalone

/-! ## Helper lemmas -/

/-- Prefix sums of a `List Nat` are monotone in the prefix length. -/
theorem takeSum_le (l : List Nat) {a b : Nat} (h : a ≤ b) :
    (l.take a).sum ≤ (l.take b).sum := by
  have hb : b = a + (b - a) := by omega
  rw [hb, List.take_add, List.sum_append]
  exact Nat.le_add_right _ _

/-- Adding the `m`-th entry extends the prefix sum by one month. -/
theorem takeSum_step (l : List Nat) {m : Nat} (h1 : 1 ≤ m) (h2 : m ≤ l.length) :
    (l.take (m - 1)).sum + l.getD (m - 1) 0 = (l.take m).sum := by
  have hlt : m - 1 < l.length := by omega
  have hm : m = (m - 1) + 1 := by omega
  rw [hm, List.take_succ, List.sum_append]
  congr 1
  simp [List.getD_eq_getElem?_getD, List.getElem?_eq_getElem hlt]

/-- Inversion of the month-table lookup: the seven tabulated years. -/
theorem bsMonthDays_inv {y : Nat} {lens : List Nat}
    (h : Scraper.bsMonthDays y = some lens) :
    (y = 2080 ∧ lens = [31, 31, 31, 32, 31, 31, 30, 29, 30, 29, 30, 30]) ∨
    (y = 2081 ∧ lens = [31, 31, 32, 31, 31, 31, 30, 29, 30, 29, 30, 30]) ∨
    (y = 2082 ∧ lens = [31, 32, 31, 32, 31, 30, 30, 30, 29, 29, 30, 30]) ∨
    (y = 2083 ∧ lens = [31, 31, 31, 32, 31, 31, 30, 29, 30, 29, 30, 30]) ∨
    (y = 2084 ∧ lens = [31, 31, 32, 31, 31, 31, 30, 29, 30, 29, 30, 30]) ∨
    (y = 2085 ∧ lens = [31, 32, 31, 32, 31, 30, 30, 30, 29, 29, 30, 30]) ∨
    (y = 2086 ∧ lens = [31, 31, 31, 32, 31, 31, 30, 29, 30, 29, 30, 30]) := by
  unfold Scraper.bsMonthDays at h
  split_ifs at h with h1 h2 h3 h4 h5 h6 h7 <;> simp_all

/-- Facts about every tabulated year: range of years, 12 months, 365 days,
and every month length at most 32. -/
theorem tableFacts {y : Nat} {lens : List Nat}
    (h : Scraper.bsMonthDays y = some lens) :
    2080 ≤ y ∧ y ≤ 2086 ∧ lens.length = 12 ∧ lens.sum = 365 ∧
    (∀ k, k < 12 → lens.getD k 0 ≤ 32) := by
  rcases bsMonthDays_inv h with ⟨hy, hl⟩ | ⟨hy, hl⟩ | ⟨hy, hl⟩ | ⟨hy, hl⟩ |
    ⟨hy, hl⟩ | ⟨hy, hl⟩ | ⟨hy, hl⟩ <;> subst hy <;> subst hl <;>
    refine ⟨by omega, by omega, by decide, by decide, by decide⟩

/-- Evaluation of the months-before loop for year 2080. -/
theorem sumMonths2080 : ∀ m, m < 14 → Scraper.sumMonthsOfYear 2080 1 m =
    some ((([31, 31, 31, 32, 31, 31, 30, 29, 30, 29, 30, 30] : List Nat).take (m - 1)).sum : Int) := by
  decide

/-- Evaluation of the months-before loop for year 2081. -/
theorem sumMonths2081 : ∀ m, m < 14 → Scraper.sumMonthsOfYear 2081 1 m =
    some ((([31, 31, 32, 31, 31, 31, 30, 29, 30, 29, 30, 30] : List Nat).take (m - 1)).sum : Int) := by
  decide

/-- Evaluation of the months-before loop for year 2082. -/
theorem sumMonths2082 : ∀ m, m < 14 → Scraper.sumMonthsOfYear 2082 1 m =
    some ((([31, 32, 31, 32, 31, 30, 30, 30, 29, 29, 30, 30] : List Nat).take (m - 1)).sum : Int) := by
  decide

/-- Evaluation of the months-before loop for year 2083. -/
theorem sumMonths2083 : ∀ m, m < 14 → Scraper.sumMonthsOfYear 2083 1 m =
    some ((([31, 31, 31, 32, 31, 31, 30, 29, 30, 29, 30, 30] : List Nat).take (m - 1)).sum : Int) := by
  decide

/-- Evaluation of the months-before loop for year 2084. -/
theorem sumMonths2084 : ∀ m, m < 14 → Scraper.sumMonthsOfYear 2084 1 m =
    some ((([31, 31, 32, 31, 31, 31, 30, 29, 30, 29, 30, 30] : List Nat).take (m - 1)).sum : Int) := by
  decide

/-- Evaluation of the months-before loop for year 2085. -/
theorem sumMonths2085 : ∀ m, m < 14 → Scraper.sumMonthsOfYear 2085 1 m =
    some ((([31, 32, 31, 32, 31, 30, 30, 30, 29, 29, 30, 30] : List Nat).take (m - 1)).sum : Int) := by
  decide

/-- Evaluation of the months-before loop for year 2086. -/
theorem sumMonths2086 : ∀ m, m < 14 → Scraper.sumMonthsOfYear 2086 1 m =
    some ((([31, 31, 31, 32, 31, 31, 30, 29, 30, 29, 30, 30] : List Nat).take (m - 1)).sum : Int) := by
  decide

/-- Normal form of the forward day count on validated tabulated dates. -/
theorem daysRepr {y : Nat} {lens : List Nat} (m d : Nat)
    (h : Scraper.bsMonthDays y = some lens) (hm : 1 ≤ m) (hm' : m ≤ 12) :
    Scraper.calculateDaysFromReference y m d =
      some (365 * ((y : Int) - 2080) + ((lens.take (m - 1)).sum : Int) + d -
        (if y = 2080 then 1 else 0)) := by
  have hm14 : m < 14 := by omega
  have s13 : Scraper.sumMonthsOfYear 2080 1 13 = some 365 := by decide
  rcases bsMonthDays_inv h with ⟨hy, hl⟩ | ⟨hy, hl⟩ | ⟨hy, hl⟩ | ⟨hy, hl⟩ |
    ⟨hy, hl⟩ | ⟨hy, hl⟩ | ⟨hy, hl⟩ <;> subst hy <;> subst hl <;>
    unfold Scraper.calculateDaysFromReference <;>
    simp only [Scraper.REFERENCE_BS_year, Scraper.REFERENCE_BS_month,
      Scraper.REFERENCE_BS_day] <;>
    rw [if_neg (by omega)]
  · rw [if_pos trivial, sumMonths2080 m hm14]
    simp
    omega
  · rw [if_neg (by omega), s13, sumMonths2081 m hm14,
      show Scraper.sumYears (2080 + 1) 2081 = 0 from by decide]
    simp
  · rw [if_neg (by omega), s13, sumMonths2082 m hm14,
      show Scraper.sumYears (2080 + 1) 2082 = 365 from by decide]
    simp
  · rw [if_neg (by omega), s13, sumMonths2083 m hm14,
      show Scraper.sumYears (2080 + 1) 2083 = 730 from by decide]
    simp
  · rw [if_neg (by omega), s13, sumMonths2084 m hm14,
      show Scraper.sumYears (2080 + 1) 2084 = 1095 from by decide]
    simp
  · rw [if_neg (by omega), s13, sumMonths2085 m hm14,
      show Scraper.sumYears (2080 + 1) 2085 = 1460 from by decide]
    simp
  · rw [if_neg (by omega), s13, sumMonths2086 m hm14,
      show Scraper.sumYears (2080 + 1) 2086 = 1825 from by decide]
    simp
/-- Bounds on the validated within-year contribution. -/
theorem takeSum_day_bounds {y : Nat} {lens : List Nat} {m d : Nat}
    (h : Scraper.bsMonthDays y = some lens) (hm : 1 ≤ m) (hm' : m ≤ 12)
    (hd : 1 ≤ d) (hd' : d ≤ lens.getD (m - 1) 0) :
    1 ≤ (lens.take (m - 1)).sum + d ∧ (lens.take (m - 1)).sum + d ≤ 365 := by
  obtain ⟨-, -, hlen, hsum, -⟩ := tableFacts h
  refine ⟨by omega, ?_⟩
  have h2 := takeSum_step lens hm (by omega)
  have h3 := takeSum_le lens hm'
  have h4 : lens.take 12 = lens := List.take_of_length_le (by omega)
  rw [h4] at h3
  omega

/-- Range of the day offsets produced for validated tabulated dates. -/
theorem offset_range {y : Nat} {lens : List Nat} {m d : Nat} {o : Int}
    (h : Scraper.bsMonthDays y = some lens) (hm : 1 ≤ m) (hm' : m ≤ 12)
    (hd : 1 ≤ d) (hd' : d ≤ lens.getD (m - 1) 0)
    (hc : Scraper.calculateDaysFromReference y m d = some o) :
    0 ≤ o ∧ o ≤ 2555 := by
  have hrepr := daysRepr m d h hm hm'
  rw [hc] at hrepr
  obtain ⟨hy1, hy2, -, -, -⟩ := tableFacts h
  obtain ⟨hb1, hb2⟩ := takeSum_day_bounds h hm hm' hd hd'
  have ho : o = 365 * ((y : Int) - 2080) + ((lens.take (m - 1)).sum : Int) + d -
      (if y = 2080 then 1 else 0) := Option.some.inj hrepr
  by_cases hy : y = 2080
  · rw [if_pos hy] at ho
    subst hy
    omega
  · rw [if_neg hy] at ho
    omega

/-- On a validated tabulated date, `bs_to_ad` returns exactly the anchor AD
date shifted by the computed offset, rendered as an ISO string. -/
theorem bs_to_ad_formats {y : Nat} {lens : List Nat} {m d : Nat} {o : Int}
    (h : Scraper.bsMonthDays y = some lens) (hm : 1 ≤ m) (hm' : m ≤ 12)
    (hd : 1 ≤ d) (hd' : d ≤ lens.getD (m - 1) 0)
    (hc : Scraper.calculateDaysFromReference y m d = some o) :
    Scraper.bs_to_ad y m d =
      some (formatYMDTriple (civilFromDays (Scraper.REFERENCE_AD_daynum + o))) := by
  obtain ⟨ho1, ho2⟩ := offset_range h hm hm' hd hd'  hc
  have e1 : minDatetimeDay = -719162 := by decide
  have e2 : maxDatetimeDay = 2932896 := by decide
  have e3 : Scraper.REFERENCE_AD_daynum = 19461 := by decide
  simp only [Scraper.bs_to_ad, h]
  rw [if_neg (by omega), if_neg (by omega), hc]
  show (if minDatetimeDay ≤ Scraper.REFERENCE_AD_daynum + o ∧
      Scraper.REFERENCE_AD_daynum + o ≤ maxDatetimeDay then
    some (formatYMDTriple (civilFromDays (Scraper.REFERENCE_AD_daynum + o)))
  else none) = some (formatYMDTriple (civilFromDays (Scraper.REFERENCE_AD_daynum + o)))
  rw [if_pos (by constructor <;> omega)]

/-- Claim C3: bs_to_ad is strictly monotonic on valid dates of tabulated
years: if BS date a is chronologically before BS date b (lexicographic on
year, month, day), both valid for their tabulated years, then the computed
day offset of a is strictly smaller than that of b, and each conversion
returns the anchor AD date (day number REFERENCE_AD_daynum) shifted by its
offset — hence the AD date returned for a is strictly earlier. -/
theorem bs_to_ad_strict_monotone
    (y1 m1 d1 y2 m2 d2 : Nat) (lens1 lens2 : List Nat)
    (h1 : Scraper.bsMonthDays y1 = some lens1)
    (h2 : Scraper.bsMonthDays y2 = some lens2)
    (hm1 : 1 ≤ m1) (hm1' : m1 ≤ 12) (hd1 : 1 ≤ d1) (hd1' : d1 ≤ lens1.getD (m1 - 1) 0)
    (hm2 : 1 ≤ m2) (hm2' : m2 ≤ 12) (hd2 : 1 ≤ d2) (hd2' : d2 ≤ lens2.getD (m2 - 1) 0)
    (hlt : y1 < y2 ∨ (y1 = y2 ∧ (m1 < m2 ∨ (m1 = m2 ∧ d1 < d2)))) :
    ∃ o1 o2 : Int,
      Scraper.calculateDaysFromReference y1 m1 d1 = some o1 ∧
      Scraper.calculateDaysFromReference y2 m2 d2 = some o2 ∧
      o1 < o2 ∧
      Scraper.bs_to_ad y1 m1 d1 =
        some (formatYMDTriple (civilFromDays (Scraper.REFERENCE_AD_daynum + o1))) ∧
      Scraper.bs_to_ad y2 m2 d2 =
        some (formatYMDTriple (civilFromDays (Scraper.REFERENCE_AD_daynum + o2))) := by
  have r1 := daysRepr m1 d1 h1 hm1 hm1'
  have r2 := daysRepr m2 d2 h2 hm2 hm2'
  refine ⟨_, _, r1, r2, ?_,
    bs_to_ad_formats h1 hm1 hm1' hd1 hd1' r1,
    bs_to_ad_formats h2 hm2 hm2' hd2 hd2' r2⟩
  obtain ⟨hb11, hb12⟩ := takeSum_day_bounds h1 hm1 hm1' hd1 hd1'
  obtain ⟨hb21, hb22⟩ := takeSum_day_bounds h2 hm2 hm2' hd2 hd2'
  obtain ⟨hy11, hy12, hlen1, hsum1, -⟩ := tableFacts h1
  obtain ⟨hy21, hy22, hlen2, hsum2, -⟩ := tableFacts h2
  rcases hlt with hy | ⟨rfl, hmd⟩
  · have hne2 : ¬(y2 = 2080) := by omega
    rw [if_neg hne2]
    by_cases hy1e : y1 = 2080
    · rw [if_pos hy1e]
      subst hy1e
      omega
    · rw [if_neg hy1e]
      omega
  · have hll : lens2 = lens1 := by
      rw [h1] at h2
      exact (Option.some.inj h2).symm
    subst hll
    rcases hmd with hm | ⟨rfl, hd⟩
    · have hstep := takeSum_step lens2 hm1 (show m1 ≤ lens2.length by omega)
      have hmono := takeSum_le lens2 (show m1 ≤ m2 - 1 by omega)
      by_cases hy1e : y1 = 2080
      · rw [if_pos hy1e]
        omega
      · rw [if_neg hy1e]
        omega
    · by_cases hy1e : y1 = 2080
      · rw [if_pos hy1e]
        omega
      · rw [if_neg hy1e]
        omega

/-- Witness for C3 at the concrete pair BS 2080-01-01 < BS 2080-01-02. -/
theorem bs_to_ad_strict_monotone_witness :
    ∃ o1 o2 : Int,
      Scraper.calculateDaysFromReference 2080 1 1 = some o1 ∧
      Scraper.calculateDaysFromReference 2080 1 2 = some o2 ∧
      o1 < o2 ∧
      Scraper.bs_to_ad 2080 1 1 =
        some (formatYMDTriple (civilFromDays (Scraper.REFERENCE_AD_daynum + o1))) ∧
      Scraper.bs_to_ad 2080 1 2 =
        some (formatYMDTriple (civilFromDays (Scraper.REFERENCE_AD_daynum + o2))) :=
  bs_to_ad_strict_monotone 2080 1 1 2080 1 2
    [31, 31, 31, 32, 31, 31, 30, 29, 30, 29, 30, 30]
    [31, 31, 31, 32, 31, 31, 30, 29, 30, 29, 30, 30]
    rfl rfl (by decide) (by decide) (by decide) (by decide)
    (by decide) (by decide) (by decide) (by decide)
    (Or.inr ⟨rfl, Or.inr ⟨rfl, by decide⟩⟩)

/-- Claim C1 (evaluation at the failing inputs): by the code's own table,
BS 2080-12-30 is the last day of year 2080 (month 12 has 30 days) and
BS 2081-01-01 is the very next calendar day, yet the computed offsets are
364 and 366 — the cross-year forward count exceeds the exact number of
calendar days from the anchor by one (no BS date is mapped to 2024-04-13).
Consequently "28th Magh 2081" parses to BS 2081-10-28 as claimed but is
converted to 2025-02-11, one day after the exact anchor-derived date
2025-02-10 (exact offset 668, code offset 669). -/
theorem crossYear_offset_off_by_one :
    Scraper.parse_bs_date "28th Magh 2081" = some ⟨2081, 10, 28⟩ ∧
    Scraper.convert_bs_date_string "28th Magh 2081" = some "2025-02-11" ∧
    Scraper.calculateDaysFromReference 2081 10 28 = some 669 ∧
    Scraper.calculateDaysFromReference 2080 12 30 = some 364 ∧
    Scraper.calculateDaysFromReference 2081 1 1 = some 366 ∧
    Scraper.bs_to_ad 2080 12 30 = some "2024-04-12" ∧
    Scraper.bs_to_ad 2081 1 1 = some "2024-04-14" := by
  decide

/-- Claim C2: converting the anchor BS date 2080-01-01 yields exactly the
anchor AD date 2023-04-14 (offset 0). -/
theorem anchor_identity :
    Scraper.bs_to_ad 2080 1 1 = some "2023-04-14" ∧
    Scraper.calculateDaysFromReference 2080 1 1 = some 0 := by
  decide

/-- Claim C7: on the scenario-2 announcement text, company-name extraction
returns "ABC Hydropower Ltd", date-range extraction returns the phrases
"1 Chaitra 2082" and "5 Chaitra 2082", and both phrases parse (Chaitra is
month 12; 2082 is tabulated) and convert successfully. -/
theorem scenario2_extraction :
    Scraper.extract_company_name
        "ABC Hydropower Ltd IPO opens from 1st Chaitra to 5th Chaitra, 2082" =
      some "ABC Hydropower Ltd" ∧
    Scraper.extract_date_range
        "ABC Hydropower Ltd IPO opens from 1st Chaitra to 5th Chaitra, 2082" =
      some ("1 Chaitra 2082", "5 Chaitra 2082") ∧
    Scraper.parse_bs_date "1 Chaitra 2082" = some ⟨2082, 12, 1⟩ ∧
    Scraper.parse_bs_date "5 Chaitra 2082" = some ⟨2082, 12, 5⟩ ∧
    Scraper.convert_bs_date_string "1 Chaitra 2082" = some "2026-03-15" ∧
    Scraper.convert_bs_date_string "5 Chaitra 2082" = some "2026-03-19" := by
  decide

/-- Claim C8: every year present in the month table has exactly 12 positive
month lengths summing to 365 or 366 (in fact every tabulated year sums
to 365). -/
theorem month_table_invariant (y : Nat) (lens : List Nat)
    (h : Scraper.bsMonthDays y = some lens) :
    lens.length = 12 ∧ (∀ x ∈ lens, 0 < x) ∧ (lens.sum = 365 ∨ lens.sum = 366) := by
  rcases bsMonthDays_inv h with ⟨hy, hl⟩ | ⟨hy, hl⟩ | ⟨hy, hl⟩ | ⟨hy, hl⟩ |
    ⟨hy, hl⟩ | ⟨hy, hl⟩ | ⟨hy, hl⟩ <;> subst hl <;> decide

/-- Witness for C8 at year 2080. -/
theorem month_table_invariant_witness :
    ([31, 31, 31, 32, 31, 31, 30, 29, 30, 29, 30, 30] : List Nat).length = 12 ∧
    (∀ x ∈ ([31, 31, 31, 32, 31, 31, 30, 29, 30, 29, 30, 30] : List Nat), 0 < x) ∧
    (([31, 31, 31, 32, 31, 31, 30, 29, 30, 29, 30, 30] : List Nat).sum = 365 ∨
     ([31, 31, 31, 32, 31, 31, 30, 29, 30, 29, 30, 30] : List Nat).sum = 366) :=
  month_table_invariant 2080 _ rfl

/-- Counterexample for C4: the approximation result is a plain ISO date
string carrying no non-exact tag; for the untabulated year 2087 the output
of the approximation path is byte-for-byte identical to the exact output
for tabulated BS 2086-12-19, so the result's form is not distinguishable
from an exact conversion. -/
theorem approx_result_indistinguishable :
    Scraper.bsMonthDays 2087 = none ∧
    Scraper.bs_to_ad 2087 1 1 = some "2030-04-01" ∧
    Scraper.bsMonthDays 2086 ≠ none ∧
    Scraper.bs_to_ad 2086 12 19 = some "2030-04-01" := by
  decide

/-- Counterexample for C6: with an untabulated year and day 0 the clamped
approximate construction is invalid (day 0), but the conversion does not
signal failure — the fallback retries with day 1 and returns a date. -/
theorem approx_day_zero_returns_date :
    Scraper.bsMonthDays 2070 = none ∧
    Scraper.bs_to_ad 2070 1 0 = some "2013-04-01" := by
  decide

/-- Claim C10: the converter of `scraper.py` and the converter of
`scraper_standalone.py` compute the same function — the alias table, month
table, month-name normalization, date-string parsing, numeric conversion
and string conversion all agree (the two class bodies are duplicated
verbatim in the source, differing only in logging). -/
theorem converters_equivalent :
    Scraper.BS_MONTHS = Standalone.BS_MONTHS ∧
    (∀ y, Scraper.bsMonthDays y = Standalone.bsMonthDays y) ∧
    (∀ s, Scraper.normalize_month_name s = Standalone.normalize_month_name s) ∧
    (∀ s, Scraper.parse_bs_date s = Standalone.parse_bs_date s) ∧
    (∀ y m d, Scraper.bs_to_ad y m d = Standalone.bs_to_ad y m d) ∧
    (∀ s, Scraper.convert_bs_date_string s = Standalone.convert_bs_date_string s) :=
  ⟨rfl, fun _ => rfl, fun _ => rfl, fun _ => rfl, fun _ _ _ => rfl, fun _ => rfl⟩

/-- For a tabulated year, a month outside 1..12 is rejected. -/
theorem bs_to_ad_month_out {y : Nat} {lens : List Nat}
    (h : Scraper.bsMonthDays y = some lens) {m : Nat}
    (hm : m < 1 ∨ 12 < m) (d : Nat) : Scraper.bs_to_ad y m d = none := by
  simp only [Scraper.bs_to_ad, h]
  rw [if_pos hm]

/-- For a tabulated year, day 0 is rejected. -/
theorem bs_to_ad_day_zero {y : Nat} {lens : List Nat}
    (h : Scraper.bsMonthDays y = some lens) (m : Nat) :
    Scraper.bs_to_ad y m 0 = none := by
  by_cases hm : m < 1 ∨ 12 < m
  · exact bs_to_ad_month_out h hm 0
  · simp only [Scraper.bs_to_ad, h]
    rw [if_neg hm, if_pos (Or.inl (by omega))]

/-- Claim C5: for every tabulated year and month 1..12, bs_to_ad succeeds
when the day equals the tabulated length of that month and returns none
when the day is one past that length; it also returns none whenever the
month is outside 1..12 or the day is 0 (below 1). -/
theorem boundary_day_validation (y : Nat) (lens : List Nat)
    (h : Scraper.bsMonthDays y = some lens) :
    (∀ m, 1 ≤ m → m ≤ 12 →
      (Scraper.bs_to_ad y m (lens.getD (m - 1) 0)).isSome = true ∧
      Scraper.bs_to_ad y m (lens.getD (m - 1) 0 + 1) = none) ∧
    (∀ m d, (m < 1 ∨ 12 < m) → Scraper.bs_to_ad y m d = none) ∧
    (∀ m, Scraper.bs_to_ad y m 0 = none) := by
  refine ⟨?_, fun m d hm => bs_to_ad_month_out h hm d, fun m => bs_to_ad_day_zero h m⟩
  intro m hm1 hm2
  rcases bsMonthDays_inv h with ⟨hy, hl⟩ | ⟨hy, hl⟩ | ⟨hy, hl⟩ | ⟨hy, hl⟩ |
    ⟨hy, hl⟩ | ⟨hy, hl⟩ | ⟨hy, hl⟩ <;> subst hy <;> subst hl
  · exact (by decide : ∀ mm, mm < 13 → 1 ≤ mm →
      (Scraper.bs_to_ad 2080 mm
        (([31, 31, 31, 32, 31, 31, 30, 29, 30, 29, 30, 30] : List Nat).getD (mm - 1) 0)).isSome = true ∧
      Scraper.bs_to_ad 2080 mm
        (([31, 31, 31, 32, 31, 31, 30, 29, 30, 29, 30, 30] : List Nat).getD (mm - 1) 0 + 1) = none)
      m (by omega) hm1
  · exact (by decide : ∀ mm, mm < 13 → 1 ≤ mm →
      (Scraper.bs_to_ad 2081 mm
        (([31, 31, 32, 31, 31, 31, 30, 29, 30, 29, 30, 30] : List Nat).getD (mm - 1) 0)).isSome = true ∧
      Scraper.bs_to_ad 2081 mm
        (([31, 31, 32, 31, 31, 31, 30, 29, 30, 29, 30, 30] : List Nat).getD (mm - 1) 0 + 1) = none)
      m (by omega) hm1
  · exact (by decide : ∀ mm, mm < 13 → 1 ≤ mm →
      (Scraper.bs_to_ad 2082 mm
        (([31, 32, 31, 32, 31, 30, 30, 30, 29, 29, 30, 30] : List Nat).getD (mm - 1) 0)).isSome = true ∧
      Scraper.bs_to_ad 2082 mm
        (([31, 32, 31, 32, 31, 30, 30, 30, 29, 29, 30, 30] : List Nat).getD (mm - 1) 0 + 1) = none)
      m (by omega) hm1
  · exact (by decide : ∀ mm, mm < 13 → 1 ≤ mm →
      (Scraper.bs_to_ad 2083 mm
        (([31, 31, 31, 32, 31, 31, 30, 29, 30, 29, 30, 30] : List Nat).getD (mm - 1) 0)).isSome = true ∧
      Scraper.bs_to_ad 2083 mm
        (([31, 31, 31, 32, 31, 31, 30, 29, 30, 29, 30, 30] : List Nat).getD (mm - 1) 0 + 1) = none)
      m (by omega) hm1
  · exact (by decide : ∀ mm, mm < 13 → 1 ≤ mm →
      (Scraper.bs_to_ad 2084 mm
        (([31, 31, 32, 31, 31, 31, 30, 29, 30, 29, 30, 30] : List Nat).getD (mm - 1) 0)).isSome = true ∧
      Scraper.bs_to_ad 2084 mm
        (([31, 31, 32, 31, 31, 31, 30, 29, 30, 29, 30, 30] : List Nat).getD (mm - 1) 0 + 1) = none)
      m (by omega) hm1
  · exact (by decide : ∀ mm, mm < 13 → 1 ≤ mm →
      (Scraper.bs_to_ad 2085 mm
        (([31, 32, 31, 32, 31, 30, 30, 30, 29, 29, 30, 30] : List Nat).getD (mm - 1) 0)).isSome = true ∧
      Scraper.bs_to_ad 2085 mm
        (([31, 32, 31, 32, 31, 30, 30, 30, 29, 29, 30, 30] : List Nat).getD (mm - 1) 0 + 1) = none)
      m (by omega) hm1
  · exact (by decide : ∀ mm, mm < 13 → 1 ≤ mm →
      (Scraper.bs_to_ad 2086 mm
        (([31, 31, 31, 32, 31, 31, 30, 29, 30, 29, 30, 30] : List Nat).getD (mm - 1) 0)).isSome = true ∧
      Scraper.bs_to_ad 2086 mm
        (([31, 31, 31, 32, 31, 31, 30, 29, 30, 29, 30, 30] : List Nat).getD (mm - 1) 0 + 1) = none)
      m (by omega) hm1

/-- Witness for C5 at year 2082, month 2 (length 32). -/
theorem boundary_day_validation_witness :
    ((Scraper.bs_to_ad 2082 2
        (([31, 32, 31, 32, 31, 30, 30, 30, 29, 29, 30, 30] : List Nat).getD (2 - 1) 0)).isSome = true ∧
      Scraper.bs_to_ad 2082 2
        (([31, 32, 31, 32, 31, 30, 30, 30, 29, 29, 30, 30] : List Nat).getD (2 - 1) 0 + 1) = none) ∧
    Scraper.bs_to_ad 2082 13 5 = none ∧
    Scraper.bs_to_ad 2082 4 0 = none := by
  have h := boundary_day_validation 2082
    [31, 32, 31, 32, 31, 30, 30, 30, 29, 29, 30, 30] rfl
  exact ⟨h.1 2 (by decide) (by decide), h.2.1 13 5 (by decide), h.2.2 4⟩

/-- Every Gregorian month has at least 28 days. -/
theorem gregMonthLen_ge28 (y : Int) (m : Nat) : 28 ≤ gregMonthLen y m := by
  unfold gregMonthLen
  split_ifs <;> omega

/-- Claim C4 (amended): for every BS year absent from the month table whose
estimated AD year lies in the representable calendar range (58 ≤ year ≤
10055), with month 1..12 and day 1..31, conversion takes the approximation
path and returns a date string — never a fatal error; the result, however,
is a plain ISO date string carrying no non-exact tag (the counterexample
shows it can coincide byte-for-byte with an exact conversion). -/
theorem approx_path_plain_result (y m d : Nat)
    (h : Scraper.bsMonthDays y = none)
    (hy1 : 58 ≤ y) (hy2 : y ≤ 10055)
    (hm1 : 1 ≤ m) (hm2 : m ≤ 12) (hd1 : 1 ≤ d) (hd2 : d ≤ 31) :
    ∃ s, Scraper.bs_to_ad y m d = some s := by
  have h28a := gregMonthLen_ge28 ((y : Int) - 57 + 1) (m - 9)
  have h28b := gregMonthLen_ge28 ((y : Int) - 57) (m + 3)
  simp only [Scraper.bs_to_ad, h, Scraper.approximate_bs_to_ad]
  by_cases h10 : 10 ≤ m
  · rw [if_pos h10, if_pos h10, if_pos ?_]
    · exact ⟨_, rfl⟩
    · unfold isValidDatetime
      refine ⟨by omega, by omega, by omega, by omega, by omega, by omega⟩
  · rw [if_neg h10, if_neg h10, if_pos ?_]
    · exact ⟨_, rfl⟩
    · unfold isValidDatetime
      refine ⟨by omega, by omega, by omega, by omega, by omega, by omega⟩

/-- Witness for the amended C4 at the untabulated year 2070 (the year the
claim itself names), month 1, day 1. -/
theorem approx_path_plain_result_witness :
    ∃ s, Scraper.bs_to_ad 2070 1 1 = some s :=
  approx_path_plain_result 2070 1 1 rfl (by decide) (by decide) (by decide)
    (by decide) (by decide) (by decide)

/-- Claim C6 (amended): when the approximated month falls outside 1..12
(a BS month of at least 22 maps to an AD month of at least 13), the
conversion signals failure (none) for every untabulated year; but when only
the clamped day is invalid (day 0) while month and year are representable,
the fallback retries with day 1 and returns a date instead of failing. -/
theorem approx_invalid_construction :
    (∀ y m d, Scraper.bsMonthDays y = none → 22 ≤ m →
      Scraper.bs_to_ad y m d = none) ∧
    (∀ y m, Scraper.bsMonthDays y = none → 58 ≤ y → y ≤ 10055 → m ≤ 21 →
      (Scraper.bs_to_ad y m 0).isSome = true) := by
  constructor
  · intro y m d h hm
    have h10 : 10 ≤ m := by omega
    simp only [Scraper.bs_to_ad, h, Scraper.approximate_bs_to_ad]
    rw [if_pos h10, if_pos h10]
    rw [if_neg ?_, if_neg ?_]
    · intro hv
      unfold isValidDatetime at hv
      omega
    · intro hv
      unfold isValidDatetime at hv
      omega
  · intro y m h hy1 hy2 hm
    simp only [Scraper.bs_to_ad, h, Scraper.approximate_bs_to_ad]
    by_cases h10 : 10 ≤ m
    · rw [if_pos h10, if_pos h10]
      rw [if_neg ?_, if_pos ?_]
      · rfl
      · unfold isValidDatetime
        refine ⟨by omega, by omega, by omega, by omega, by omega,
          le_trans (by omega) (gregMonthLen_ge28 _ _)⟩
      · intro hv
        unfold isValidDatetime at hv
        omega
    · rw [if_neg h10, if_neg h10]
      rw [if_neg ?_, if_pos ?_]
      · rfl
      · unfold isValidDatetime
        refine ⟨by omega, by omega, by omega, by omega, by omega,
          le_trans (by omega) (gregMonthLen_ge28 _ _)⟩
      · intro hv
        unfold isValidDatetime at hv
        omega

/-- Witness for the amended C6: month 25 of untabulated year 2100 fails;
day 0 of month 5 of untabulated year 2070 still returns a date. -/
theorem approx_invalid_construction_witness :
    Scraper.bs_to_ad 2100 25 5 = none ∧
    (Scraper.bs_to_ad 2070 5 0).isSome = true :=
  ⟨approx_invalid_construction.1 2100 25 5 rfl (by decide),
   approx_invalid_construction.2 2070 5 rfl (by decide) (by decide) (by decide)⟩

/-- Formatted dates are never the empty string. -/
theorem formatYMD_ne_empty (y : Int) (m d : Nat) : formatYMD y m d ≠ "" := by
  intro hcontra
  have := congrArg String.length hcontra
  simp [formatYMD, pad4, pad2, String.length, String.length_append] at this

/-- `bs_to_ad` never returns the empty string (so the Python truthiness
test on a returned date string always passes). -/
theorem bs_to_ad_ne_empty {y m d : Nat} {s : String}
    (h : Scraper.bs_to_ad y m d = some s) : s ≠ "" := by
  cases hby : Scraper.bsMonthDays y with
  | none =>
    simp only [Scraper.bs_to_ad, hby, Scraper.approximate_bs_to_ad] at h
    split_ifs at h <;>
      first
      | exact Option.noConfusion h
      | (injection h with h' ; subst h' ; exact formatYMD_ne_empty _ _ _)
  | some lens =>
    cases hc : Scraper.calculateDaysFromReference y m d with
    | none =>
      simp only [Scraper.bs_to_ad, hby, hc] at h
      split_ifs at h
    | some o =>
      simp only [Scraper.bs_to_ad, hby, hc, formatDateAdd] at h
      split_ifs at h
      all_goals
        first
        | exact Option.noConfusion h
        | (injection h with h' ; subst h' ; exact formatYMD_ne_empty _ _ _)

/-- `convert_bs_date_string` never returns the empty string. -/
theorem convert_ne_empty {x : String} {s : String}
    (h : Scraper.convert_bs_date_string x = some s) : s ≠ "" := by
  unfold Scraper.convert_bs_date_string at h
  cases hp : Scraper.parse_bs_date x with
  | none => rw [hp] at h; exact Option.noConfusion h
  | some p => rw [hp] at h; exact bs_to_ad_ne_empty h
/-- The loop body emits exactly the entries whose two BS date strings both
convert; the truthiness guards of the source are redundant because the
empty string never parses and conversions never return empty strings. -/
theorem convertStep_eq (acc : List Scraper.IpoAD) (ipo : Scraper.IpoBS) :
    Scraper.convertStep acc ipo = acc ++ (Scraper.convertEntry ipo).toList := by
  unfold Scraper.convertStep Scraper.convertEntry
  have hS : (if ipo.startDateBS ≠ "" then Scraper.convert_bs_date_string ipo.startDateBS
      else none) = Scraper.convert_bs_date_string ipo.startDateBS := by
    by_cases hs : ipo.startDateBS = ""
    · rw [if_neg (by simp [hs]), hs]
      rfl
    · rw [if_pos hs]
  have hE : (if ipo.endDateBS ≠ "" then Scraper.convert_bs_date_string ipo.endDateBS
      else none) = Scraper.convert_bs_date_string ipo.endDateBS := by
    by_cases he : ipo.endDateBS = ""
    · rw [if_neg (by simp [he]), he]
      rfl
    · rw [if_pos he]
  rw [hS, hE]
  cases hcs : Scraper.convert_bs_date_string ipo.startDateBS with
  | none => simp
  | some s =>
    cases hce : Scraper.convert_bs_date_string ipo.endDateBS with
    | none => simp
    | some e =>
      have h1 := convert_ne_empty hcs
      have h2 := convert_ne_empty hce
      simp [h1, h2]

/-- The accumulating loop computes an order-preserving `filterMap`. -/
theorem foldl_convertStep (l : List Scraper.IpoBS) :
    ∀ acc : List Scraper.IpoAD,
      l.foldl Scraper.convertStep acc = acc ++ l.filterMap Scraper.convertEntry := by
  induction l with
  | nil => intro acc; simp
  | cons x xs ih =>
    intro acc
    rw [List.foldl_cons, convertStep_eq, List.filterMap_cons]
    cases hg : Scraper.convertEntry x with
    | none => simp [ih]
    | some b =>
      rw [ih]
      simp

/-- Claim C9: the date-conversion stage emits exactly those entries whose
start and end BS date strings both parse and convert successfully
(an order-preserving filterMap of the per-entry conversion, with no
deduplication or sorting), so an entry that fails is skipped without
affecting any other entry. -/
theorem convert_dates_pipeline :
    (∀ l, Scraper.convert_dates_to_ad l = l.filterMap Scraper.convertEntry) ∧
    (∀ ipo, (Scraper.convertEntry ipo).isSome =
      ((Scraper.convert_bs_date_string ipo.startDateBS).isSome &&
       (Scraper.convert_bs_date_string ipo.endDateBS).isSome)) := by
  constructor
  · intro l
    show l.foldl Scraper.convertStep [] = _
    rw [foldl_convertStep l []]
    simp
  · intro ipo
    unfold Scraper.convertEntry
    cases Scraper.convert_bs_date_string ipo.startDateBS with
    | none => simp
    | some s =>
      cases Scraper.convert_bs_date_string ipo.endDateBS with
      | none => simp
      | some e => simp
